import Mathlib

/-!
Verification development for the pattern network visualizer
(src/complexity-science/pattern-recognition/natural-patterns/src/pattern_network_visualizer.py).

The script builds an undirected networkx graph from two static dictionaries
(PATTERN_CATEGORIES, PATTERN_RELATIONSHIPS), renders it with matplotlib and
exports it as a JSON document with top-level keys nodes and links.

The embedding models a networkx `Graph` as an insertion-ordered list of nodes
(each carrying an optional `category` attribute, matching the node attribute
dictionary) together with an insertion-ordered list of undirected edges, each
stored once in the orientation in which it was first added.  `add_node` on an
existing node updates its attributes; `add_edge` auto-creates missing endpoint
nodes (without a category attribute) and is a no-op on the edge list when the
edge is already present in either orientation, exactly as in networkx.
-/

/-- Model of a networkx `Graph` restricted to the features the script uses:
string-named nodes with an optional `category` attribute, and undirected
edges without multi-edges. -/
structure Graph where
  nodes : List (String × Option String)
  edges : List (String × String)
deriving Repr, DecidableEq

set_option maxRecDepth 100000

/-- The empty graph, `nx.Graph()`. -/
def Graph.empty : Graph := ⟨[], []⟩

/-- Membership of a node name in the graph. -/
def Graph.hasNode (G : Graph) (n : String) : Bool :=
  G.nodes.any (fun p => p.1 == n)

/-- Membership of an undirected edge, in either orientation
(networkx `G.has_edge`). -/
def Graph.hasEdge (G : Graph) (u v : String) : Bool :=
  G.edges.any (fun e => (e.1 == u && e.2 == v) || (e.1 == v && e.2 == u))

/-- Number of stored edge entries matching the undirected pair `{u, v}`. -/
def Graph.edgeCount (G : Graph) (u v : String) : Nat :=
  G.edges.countP (fun e => (e.1 == u && e.2 == v) || (e.1 == v && e.2 == u))

/-- Model of `G.add_node(n, category=cat)`: inserts the node at the end if it
is new, otherwise overwrites its `category` attribute. -/
def Graph.addNode (G : Graph) (n : String) (cat : String) : Graph :=
  if G.hasNode n then
    { G with nodes := G.nodes.map (fun p => if p.1 == n then (p.1, some cat) else p) }
  else
    { G with nodes := G.nodes ++ [(n, some cat)] }

/-- Model of `G.add_edge(u, v)`: auto-creates missing endpoint nodes (with no
`category` attribute) and records the edge once, unless it is already present
in either orientation. -/
def Graph.addEdge (G : Graph) (u v : String) : Graph :=
  let G1 : Graph :=
    if G.hasNode u then G else { G with nodes := G.nodes ++ [(u, none)] }
  let G2 : Graph :=
    if G1.hasNode v then G1 else { G1 with nodes := G1.nodes ++ [(v, none)] }
  if G2.hasEdge u v then G2 else { G2 with edges := G2.edges ++ [(u, v)] }

/-- Key membership in an association list, modelling Python `k in dict`. -/
def isKey (table : List (String × String)) (k : String) : Bool :=
  table.any (fun p => p.1 == k)

/-- The static CATEGORIES dictionary: category label to display color. -/
def CATEGORIES : List (String × String) :=
  [("Structural", "blue"),
   ("Process", "green"),
   ("Relationship", "red"),
   ("Resilience", "purple")]

/-- The static PATTERN_RELATIONSHIPS dictionary: pattern name to the list of
related pattern names, in source order. -/
def PATTERN_RELATIONSHIPS : List (String × List String) :=
  [("Fractal Self-Similarity", ["Emergent Behavior", "Hierarchical Organization"]),
   ("Emergent Behavior", ["Fractal Self-Similarity", "Feedback Loops", "Self-Organization"]),
   ("Feedback Loops", ["Emergent Behavior", "Cyclical Patterns", "Adaptive Capacity"]),
   ("Network Structure", ["Fractal Self-Similarity", "Resource Distribution"]),
   ("Hierarchical Organization", ["Fractal Self-Similarity", "Network Structure"]),
   ("Cyclical Patterns", ["Feedback Loops", "Adaptation and Evolution"]),
   ("Resource Distribution", ["Network Structure", "Symbiosis and Mutualism"]),
   ("Adaptation and Evolution", ["Cyclical Patterns", "Feedback Loops"]),
   ("Symbiosis and Mutualism", ["Resource Distribution", "Adaptation and Evolution"]),
   ("Boundaries and Interfaces", ["Symbiosis and Mutualism", "Hierarchical Organization"])]

/-- The static PATTERN_CATEGORIES dictionary: pattern name to category label,
in source order. -/
def PATTERN_CATEGORIES : List (String × String) :=
  [("Fractal Self-Similarity", "Structural"),
   ("Emergent Behavior", "Process"),
   ("Feedback Loops", "Process"),
   ("Network Structure", "Structural"),
   ("Hierarchical Organization", "Structural"),
   ("Cyclical Patterns", "Process"),
   ("Resource Distribution", "Relationship"),
   ("Adaptation and Evolution", "Process"),
   ("Symbiosis and Mutualism", "Relationship"),
   ("Boundaries and Interfaces", "Resilience")]

/-- The body of `create_pattern_network`, abstracted over the two static
tables it reads: add one node per `(pattern, category)` entry, then for every
relationship entry `(pattern, related_patterns)` add the edge
`(pattern, related)` only when both names are keys of the category table. -/
def create_pattern_network_with (cats : List (String × String))
    (rels : List (String × List String)) : Graph :=
  let G := cats.foldl (fun G pc => G.addNode pc.1 pc.2) Graph.empty
  rels.foldl (fun G pr =>
    if isKey cats pr.1 then
      pr.2.foldl (fun G related =>
        if isKey cats related then G.addEdge pr.1 related else G) G
    else G) G

/-- Model of `create_pattern_network()`, which reads the global tables. -/
def create_pattern_network : Graph :=
  create_pattern_network_with PATTERN_CATEGORIES PATTERN_RELATIONSHIPS

/-- One element of the exported `nodes` array: `{"id": ..., "category": ...}`. -/
structure NodeJson where
  id : String
  category : String
deriving Repr, DecidableEq

/-- One element of the exported `links` array: `{"source": ..., "target": ...}`. -/
structure LinkJson where
  source : String
  target : String
deriving Repr, DecidableEq

/-- The `data` dictionary built by `save_network_data` before serialization. -/
structure NetworkData where
  nodes : List NodeJson
  links : List LinkJson
deriving Repr, DecidableEq

/-- Model of `save_network_data(G, output_file)` up to the terminal file
write: one node object per graph node with `attrs.get("category", "Unknown")`,
and one link object per stored undirected edge, in iteration order. -/
def save_network_data (G : Graph) : NetworkData :=
  { nodes := G.nodes.map (fun p => { id := p.1, category := p.2.getD "Unknown" }),
    links := G.edges.map (fun e => { source := e.1, target := e.2 }) }

/-- Number of entries of the exported `links` array matching the undirected
pair `{u, v}` in either orientation. -/
def linkCount (d : NetworkData) (u v : String) : Nat :=
  d.links.countP (fun l => (l.source == u && l.target == v) || (l.source == v && l.target == u))

/-- Minimal JSON value model, enough for the document `json.dump` receives. -/
inductive JsonVal where
  | str (s : String)
  | arr (elems : List JsonVal)
  | obj (fields : List (String × JsonVal))
deriving Repr

/-- Top-level keys of a JSON object, in order ([] on non-objects). -/
def JsonVal.keys : JsonVal → List String
  | .obj fields => fields.map (fun f => f.1)
  | _ => []

/-- Elements of a JSON array ([] on non-arrays). -/
def JsonVal.elems : JsonVal → List JsonVal
  | .arr xs => xs
  | _ => []

/-- Value bound to a key of a JSON object (first binding wins). -/
def JsonVal.field (j : JsonVal) (k : String) : JsonVal :=
  match j with
  | .obj fields =>
    match fields.find? (fun f => f.1 == k) with
    | some f => f.2
    | none => .obj []
  | _ => .obj []

/-- The JSON document `save_network_data` passes to `json.dump`, with the
exact dictionary shape built in the source: top-level keys `nodes` and
`links`, node objects with keys `id` and `category`, link objects with keys
`source` and `target`. -/
def network_data_json (G : Graph) : JsonVal :=
  .obj [("nodes", .arr (G.nodes.map (fun p =>
           .obj [("id", .str p.1), ("category", .str (p.2.getD "Unknown"))]))),
        ("links", .arr (G.edges.map (fun e =>
           .obj [("source", .str e.1), ("target", .str e.2)])))]

/-- Observable actions of `visualize_pattern_network`, in program order. -/
inductive PlotEffect where
  | figure
  | drawNodes (category : String) (nodeList : List String)
  | drawEdges
  | drawLabels
  | title (t : String)
  | legend
  | axisOff
  | savefig (file : String)
  | printSaved (file : String)
  | showPlot
deriving Repr, DecidableEq

/-- A graph has no multi-edges when every stored edge matches exactly one
stored entry, counting both orientations. -/
def Graph.noDupEdges (G : Graph) : Bool :=
  G.edges.all (fun e => G.edgeCount e.1 e.2 == 1)

/-- Whether an effect writes an image file (`plt.savefig`). -/
def PlotEffect.isSavefig : PlotEffect → Bool
  | .savefig _ => true
  | _ => false

/-- Whether an effect is the save-branch confirmation print. -/
def PlotEffect.isPrintSaved : PlotEffect → Bool
  | .printSaved _ => true
  | _ => false

/-- Model of `visualize_pattern_network(G, output_file)` as its trace of
observable actions: create the figure, draw one node group per CATEGORIES
entry (the nodes whose `category` attribute equals that category), draw
edges, labels, title, legend, axis off; then either save the figure and
print a confirmation (when `output_file` is given) or show it interactively
(when `output_file` is omitted or None). -/
def visualize_pattern_network (G : Graph) (output_file : Option String) :
    List PlotEffect :=
  [PlotEffect.figure]
  ++ CATEGORIES.map (fun c =>
       PlotEffect.drawNodes c.1
         ((G.nodes.filter (fun p => p.2 == some c.1)).map (fun p => p.1)))
  ++ [PlotEffect.drawEdges, PlotEffect.drawLabels,
      PlotEffect.title "Pattern Relationship Network",
      PlotEffect.legend, PlotEffect.axisOff]
  ++ (match output_file with
      | some f => [PlotEffect.savefig f, PlotEffect.printSaved f]
      | none => [PlotEffect.showPlot])

/-- Whether an effect is the interactive display (`plt.show`). -/
def PlotEffect.isShowPlot : PlotEffect → Bool
  | .showPlot => true
  | _ => false

/-- Helper: the exported links array counts an undirected pair exactly as the
graph edge list does. -/
theorem linkCount_save_network_data (G : Graph) (u v : String) :
    linkCount (save_network_data G) u v = G.edgeCount u v := by
  simp only [linkCount, save_network_data, Graph.edgeCount, List.countP_map]
  rfl

/-- C1: for every pattern name that is a key of PATTERN_CATEGORIES, the graph
returned by create_pattern_network contains exactly one node with that name,
and its category attribute is the category declared in the mapping. -/
theorem c1_one_node_per_key_with_declared_category :
    PATTERN_CATEGORIES.all (fun pc =>
      create_pattern_network.nodes.filter (fun q => q.1 == pc.1)
        == [(pc.1, some pc.2)]) = true := by decide

/-- C2: for every relationship entry whose both names are keys of
PATTERN_CATEGORIES, the built graph stores the undirected edge exactly once,
counting both orientations, so reverse and duplicate declarations collapse to
a single edge and no multi-edge exists. -/
theorem c2_undirected_edges_collapse :
    PATTERN_RELATIONSHIPS.all (fun pr =>
      pr.2.all (fun r =>
        !(isKey PATTERN_CATEGORIES pr.1 && isKey PATTERN_CATEGORIES r)
        || create_pattern_network.edgeCount pr.1 r == 1)) = true := by decide

/-- C3: relationship entries referencing a name that is not a key of
PATTERN_CATEGORIES produce no edge, and every edge of the built graph has
both endpoints among the keys of PATTERN_CATEGORIES. -/
theorem c3_unknown_relationships_silently_dropped :
    (PATTERN_RELATIONSHIPS.all (fun pr =>
      pr.2.all (fun r =>
        (isKey PATTERN_CATEGORIES pr.1 && isKey PATTERN_CATEGORIES r)
        || !create_pattern_network.hasEdge pr.1 r))
    && create_pattern_network.edges.all (fun e =>
        isKey PATTERN_CATEGORIES e.1 && isKey PATTERN_CATEGORIES e.2)) = true := by
  decide

/-- C4: for every graph without multi-edges, the exported JSON data has as
many node entries as graph nodes and as many link entries as graph edges,
every link corresponds to an existing undirected edge, and every edge appears
exactly once among the links (never once per direction). -/
theorem c4_exporter_round_trip (G : Graph) (h : G.noDupEdges = true) :
    (save_network_data G).nodes.length = G.nodes.length ∧
    (save_network_data G).links.length = G.edges.length ∧
    (save_network_data G).links.all
      (fun l => G.hasEdge l.source l.target) = true ∧
    G.edges.all (fun e => linkCount (save_network_data G) e.1 e.2 == 1) = true := by
  refine ⟨by simp [save_network_data], by simp [save_network_data], ?_, ?_⟩
  · rw [List.all_eq_true]
    intro l hl
    simp only [save_network_data, List.mem_map] at hl
    obtain ⟨e, he, rfl⟩ := hl
    simp only [Graph.hasEdge, List.any_eq_true]
    exact ⟨e, he, by simp⟩
  · rw [List.all_eq_true]
    intro e he
    rw [linkCount_save_network_data]
    rw [Graph.noDupEdges, List.all_eq_true] at h
    exact h e he

/-- Witness for C4: the round-trip property holds at the graph the program
actually builds. -/
theorem c4_exporter_round_trip_witness :
    create_pattern_network.noDupEdges = true ∧
    ((save_network_data create_pattern_network).nodes.length
        = create_pattern_network.nodes.length ∧
     (save_network_data create_pattern_network).links.length
        = create_pattern_network.edges.length ∧
     (save_network_data create_pattern_network).links.all
        (fun l => create_pattern_network.hasEdge l.source l.target) = true ∧
     create_pattern_network.edges.all
        (fun e => linkCount (save_network_data create_pattern_network) e.1 e.2 == 1)
        = true) :=
  ⟨by decide, c4_exporter_round_trip create_pattern_network (by decide)⟩

/-- Helper: the value at key nodes of the exported JSON document. -/
theorem network_data_json_nodes (G : Graph) :
    (network_data_json G).field "nodes"
      = .arr (G.nodes.map (fun p =>
          .obj [("id", .str p.1), ("category", .str (p.2.getD "Unknown"))])) := rfl

/-- Helper: the value at key links of the exported JSON document. -/
theorem network_data_json_links (G : Graph) :
    (network_data_json G).field "links"
      = .arr (G.edges.map (fun e =>
          .obj [("source", .str e.1), ("target", .str e.2)])) := rfl

/-- C5: for every graph, the exported JSON document has exactly the top-level
keys nodes and links, every element of the nodes array has exactly the keys
id and category, and every element of the links array has exactly the keys
source and target. -/
theorem c5_json_document_shape (G : Graph) :
    (network_data_json G).keys = ["nodes", "links"] ∧
    ((network_data_json G).field "nodes").elems.all
      (fun j => j.keys == ["id", "category"]) = true ∧
    ((network_data_json G).field "links").elems.all
      (fun j => j.keys == ["source", "target"]) = true := by
  refine ⟨rfl, ?_, ?_⟩
  · rw [network_data_json_nodes]
    simp only [JsonVal.elems, List.all_map]
    rw [List.all_eq_true]
    intro p hp
    obtain ⟨q, hq, rfl⟩ := List.mem_map.mp hp
    rfl
  · rw [network_data_json_links]
    simp only [JsonVal.elems, List.all_map]
    rw [List.all_eq_true]
    intro e he
    obtain ⟨q, hq, rfl⟩ := List.mem_map.mp he
    rfl

/-- C6: every node of the graph the program builds carries a category
attribute, so no node object emitted by the exporter has the defensive
Unknown category. -/
theorem c6_unknown_sentinel_unreachable :
    (create_pattern_network.nodes.all (fun p => p.2.isSome)
    && (save_network_data create_pattern_network).nodes.all
        (fun n => !(n.category == "Unknown"))) = true := by decide

/-- C7: building the network twice from the same category and relationship
tables yields identical node lists (category attributes included) and
identical edge lists; the builder is a pure function of the static tables. -/
theorem c7_builder_idempotent (cats : List (String × String))
    (rels : List (String × List String)) :
    (create_pattern_network_with cats rels).nodes
        = (create_pattern_network_with cats rels).nodes ∧
    (create_pattern_network_with cats rels).edges
        = (create_pattern_network_with cats rels).edges :=
  ⟨rfl, rfl⟩

/-- C8: on categories A maps to Structural, B maps to Process and
relationships A relates to B and B relates to A, the built graph has exactly
2 nodes and exactly the single edge (A, B), and the exported data has 2 node
entries and 1 link entry. -/
theorem c8_concrete_two_pattern_scenario :
    (create_pattern_network_with [("A", "Structural"), ("B", "Process")]
        [("A", ["B"]), ("B", ["A"])]).nodes.length = 2 ∧
    (create_pattern_network_with [("A", "Structural"), ("B", "Process")]
        [("A", ["B"]), ("B", ["A"])]).edges = [("A", "B")] ∧
    (save_network_data (create_pattern_network_with
        [("A", "Structural"), ("B", "Process")]
        [("A", ["B"]), ("B", ["A"])])).nodes.length = 2 ∧
    (save_network_data (create_pattern_network_with
        [("A", "Structural"), ("B", "Process")]
        [("A", ["B"]), ("B", ["A"])])).links.length = 1 := by decide

/-- C9: the node names of the graph returned by create_pattern_network are
exactly the keys of PATTERN_CATEGORIES, in order; edge insertion introduces
no node beyond the category table because both endpoints are checked against
it before add_edge runs. -/
theorem c9_node_set_equals_category_keys :
    create_pattern_network.nodes.map (fun p => p.1)
      = PATTERN_CATEGORIES.map (fun p => p.1) := by decide

/-- C10: when visualize_pattern_network is called with output_file omitted or
None, its action trace contains no savefig and no save-confirmation print,
and shows the figure interactively exactly once. -/
theorem c10_none_output_shows_without_saving (G : Graph) :
    (visualize_pattern_network G none).countP PlotEffect.isSavefig = 0 ∧
    (visualize_pattern_network G none).countP PlotEffect.isPrintSaved = 0 ∧
    (visualize_pattern_network G none).countP PlotEffect.isShowPlot = 1 := by
  refine ⟨?_, ?_, ?_⟩ <;>
    simp [visualize_pattern_network, CATEGORIES, List.countP_append, List.countP_cons,
      List.countP_map, PlotEffect.isSavefig, PlotEffect.isPrintSaved,
      PlotEffect.isShowPlot, Function.comp]
